import Mathlib

set_option linter.unusedVariables false

/-
  Verification of the error-reporting layer of the optimal_learning library
  (moe/optimal_learning/cpp/gpp_exception.hpp).

  The header declares the exception taxonomy (RuntimeException,
  BoundsException<T>, LowerBoundException<T>, UpperBoundException<T>,
  InvalidValueException<T>, SingularMatrixException) and the raise wrapper
  ThrowException.  Constructor bodies live in gpp_exception.cpp, which is not
  part of the available sources; those bodies are modelled from the
  specification (and the format documentation in the header), as flagged in
  the doc comments below.  Value types T are embedded generically; the
  value-to-string step of message formatting is a parameter toStr, which for
  int is Lean's decimal toString.
-/

namespace OptimalLearning

/-- `containsInOrder parts s` holds when the strings in `parts` occur inside
`s` as disjoint substrings, in the given order. -/
def containsInOrder : List String → String → Prop
  | [], _ => True
  | p :: ps, s => ∃ pre rest, s = pre ++ (p ++ rest) ∧ containsInOrder ps rest

/-- The shared message shape used by every exception kind other than
RuntimeException: kind name, condition-specific description, custom message,
calling-routine name, file/line token, in that order. -/
def formatMessage (name desc custom_message func_info line_info : String) : String :=
  name ++ (": " ++ (desc ++ (" " ++ (custom_message ++ (" " ++ (func_info ++ (" " ++ line_info)))))))

/-- RuntimeException's message shape: kind name, custom message,
calling-routine name, file/line token (no condition-specific description). -/
def runtimeMessage (name custom_message func_info line_info : String) : String :=
  name ++ (": " ++ (custom_message ++ (" " ++ (func_info ++ (" " ++ line_info)))))

/-- The condition-specific description of a bounds violation:
"VALUE is not in range [MIN, MAX]." -/
def boundsDesc (valueS minS maxS : String) : String :=
  valueS ++ (" is not in range [" ++ (minS ++ (", " ++ (maxS ++ "]."))))

/-- The full BoundsException-format message, parameterised by the kind name
passed to the protected constructor. -/
def boundsMessage (name line_info func_info custom_message valueS minS maxS : String) : String :=
  formatMessage name (boundsDesc valueS minS maxS) custom_message func_info line_info

/-- Model of std::numeric_limits<T>: the maximum and lowest representable
values of the C++ value type embedded as T. -/
structure NumericLimits (T : Type) where
  max : T
  lowest : T

/-- std::numeric_limits<int> on the library's target platforms (32-bit int). -/
def intLimits : NumericLimits Int := ⟨2147483647, -2147483648⟩

/-- RuntimeException: holds only the message produced by what(). -/
structure RuntimeException where
  message_ : String

def RuntimeException.kName : String := "RuntimeException"

/-- Modelled from the spec: the RuntimeException constructor body is in
gpp_exception.cpp, absent from the available sources.  Per the spec (§4.3)
and the format documented in the header, it formats
"RuntimeException: CUSTOM_MESSAGE FUNCTION_NAME FILE_LINE_INFO" at
construction time. -/
def RuntimeException.mk' (line_info func_info custom_message : String) : RuntimeException :=
  ⟨runtimeMessage RuntimeException.kName custom_message func_info line_info⟩

def RuntimeException.what (e : RuntimeException) : String :=
  e.message_

/-- BoundsException<T>: stores value, min, max and the formatted message. -/
structure BoundsException (T : Type) where
  value_ : T
  min_ : T
  max_ : T
  message_ : String

def BoundsException.kName : String := "BoundsException"

/-- Modelled from the spec: the protected BoundsException constructor body
(taking the kind name to print) is in gpp_exception.cpp, absent from the
available sources.  Per the spec (§4.4) and the header's format
documentation, it stores value/min/max verbatim, with no clamping,
reordering, or min ≤ max validation, and formats
"NAME: VALUE is not in range [MIN, MAX]. CUSTOM_MESSAGE FUNCTION_NAME
FILE_LINE_INFO". -/
def BoundsException.mkProtected {T : Type} (toStr : T → String) (name_in line_info func_info custom_message : String) (value_in min_in max_in : T) : BoundsException T :=
  ⟨value_in, min_in, max_in,
    boundsMessage name_in line_info func_info custom_message (toStr value_in) (toStr min_in) (toStr max_in)⟩

/-- The public BoundsException constructor delegates to the protected one,
passing its own kName (gpp_exception.hpp line 208). -/
def BoundsException.mk' {T : Type} (toStr : T → String) (line_info func_info custom_message : String) (value_in min_in max_in : T) : BoundsException T :=
  BoundsException.mkProtected toStr BoundsException.kName line_info func_info custom_message value_in min_in max_in

def BoundsException.what {T : Type} (e : BoundsException T) : String :=
  e.message_

def BoundsException.value {T : Type} (e : BoundsException T) : T :=
  e.value_

def BoundsException.max {T : Type} (e : BoundsException T) : T :=
  e.max_

def BoundsException.min {T : Type} (e : BoundsException T) : T :=
  e.min_

/-- LowerBoundException<T> publicly derives from BoundsException<T>;
the base subobject is embedded as a field. -/
structure LowerBoundException (T : Type) where
  toBoundsException : BoundsException T

def LowerBoundException.kName : String := "LowerBoundException"

/-- The LowerBoundException constructor (gpp_exception.hpp line 276):
delegates to the protected BoundsException constructor with its own kName and
max set to std::numeric_limits<ValueType>::max(). -/
def LowerBoundException.mk' {T : Type} (toStr : T → String) (limits : NumericLimits T) (line_info func_info custom_message : String) (value_in min_in : T) : LowerBoundException T :=
  ⟨BoundsException.mkProtected toStr LowerBoundException.kName line_info func_info custom_message value_in min_in limits.max⟩

/-- UpperBoundException<T> publicly derives from BoundsException<T>;
the base subobject is embedded as a field. -/
structure UpperBoundException (T : Type) where
  toBoundsException : BoundsException T

def UpperBoundException.kName : String := "UpperBoundException"

/-- The UpperBoundException constructor (gpp_exception.hpp line 304):
delegates to the protected BoundsException constructor with its own kName and
min set to std::numeric_limits<ValueType>::lowest(). -/
def UpperBoundException.mk' {T : Type} (toStr : T → String) (limits : NumericLimits T) (line_info func_info custom_message : String) (value_in max_in : T) : UpperBoundException T :=
  ⟨BoundsException.mkProtected toStr UpperBoundException.kName line_info func_info custom_message value_in limits.lowest max_in⟩

/-- The C++ scalar types a value type T may stand for, used to model the
compile-time trait std::is_floating_point<ValueType>. -/
inductive CppScalarType where
  | cppBool
  | cppChar
  | cppInt
  | cppLong
  | cppFloat
  | cppDouble
  | cppLongDouble
deriving DecidableEq

/-- std::is_floating_point: true exactly for float, double, long double. -/
def isFloatingPoint : CppScalarType → Bool
  | CppScalarType.cppFloat => true
  | CppScalarType.cppDouble => true
  | CppScalarType.cppLongDouble => true
  | _ => false

/-- The condition-specific description of an InvalidValueException without a
tolerance: "VALUE != TRUTH (value != truth)." -/
def invalidValueDesc (valueS truthS : String) : String :=
  valueS ++ (" != " ++ (truthS ++ " (value != truth)."))

/-- The condition-specific description of an InvalidValueException with a
tolerance: "VALUE != TRUTH ± TOLERANCE (value != truth ± tolerance)." -/
def invalidValueDescTol (valueS truthS toleranceS : String) : String :=
  valueS ++ (" != " ++ (truthS ++ (" ± " ++ (toleranceS ++ " (value != truth ± tolerance)."))))

/-- InvalidValueException<T>: stores value, truth, tolerance and the
formatted message. -/
structure InvalidValueException (T : Type) where
  value_ : T
  truth_ : T
  tolerance_ : T
  message_ : String

def InvalidValueException.kName : String := "InvalidValueException"

/-- Modelled from the spec: the two-payload InvalidValueException constructor
body is in gpp_exception.cpp, absent from the available sources.  Per the
spec (§4.6) and the header's format documentation, it stores value and truth
verbatim, leaves tolerance at the zero sentinel, and formats
"InvalidValueException: VALUE != TRUTH (value != truth). CUSTOM_MESSAGE
FUNCTION_NAME FILE_LINE_INFO". -/
def InvalidValueException.mk' {T : Type} [Zero T] (toStr : T → String) (line_info func_info custom_message : String) (value_in truth_in : T) : InvalidValueException T :=
  ⟨value_in, truth_in, 0,
    formatMessage InvalidValueException.kName (invalidValueDesc (toStr value_in) (toStr truth_in)) custom_message func_info line_info⟩

/-- Modelled from the spec: the three-payload (tolerance) InvalidValueException
constructor body is in gpp_exception.cpp, absent from the available sources.
Per the spec (§4.6) and the header's format documentation, it stores value,
truth and tolerance verbatim and formats
"InvalidValueException: VALUE != TRUTH ± TOLERANCE (value != truth ±
tolerance). CUSTOM_MESSAGE FUNCTION_NAME FILE_LINE_INFO". -/
def InvalidValueException.mkTol {T : Type} (toStr : T → String) (line_info func_info custom_message : String) (value_in truth_in tolerance_in : T) : InvalidValueException T :=
  ⟨value_in, truth_in, tolerance_in,
    formatMessage InvalidValueException.kName (invalidValueDescTol (toStr value_in) (toStr truth_in) (toStr tolerance_in)) custom_message func_info line_info⟩

/-- Overload-resolution model of the tolerance constructor's
std::enable_if<std::is_floating_point<ValueType>::value> guard
(gpp_exception.hpp lines 352-353): the constructor participates in overload
resolution only when the scalar type of T is a floating-point type;
unavailability at compile time is modelled as `none`. -/
def InvalidValueException.mkTolIfEnabled {T : Type} (scalar : CppScalarType) (toStr : T → String) (line_info func_info custom_message : String) (value_in truth_in tolerance_in : T) : Option (InvalidValueException T) :=
  if isFloatingPoint scalar then
    some (InvalidValueException.mkTol toStr line_info func_info custom_message value_in truth_in tolerance_in)
  else
    none

def InvalidValueException.what {T : Type} (e : InvalidValueException T) : String :=
  e.message_

def InvalidValueException.value {T : Type} (e : InvalidValueException T) : T :=
  e.value_

def InvalidValueException.truth {T : Type} (e : InvalidValueException T) : T :=
  e.truth_

def InvalidValueException.tolerance {T : Type} (e : InvalidValueException T) : T :=
  e.tolerance_

/-- The condition-specific description of a SingularMatrixException:
"M x N matrix is singular." -/
def singularDesc (rowsS colsS : String) : String :=
  rowsS ++ (" x " ++ (colsS ++ " matrix is singular."))

/-- SingularMatrixException: stores the matrix dimensions, an owned copy of
the row-major matrix entries, and the formatted message.  D embeds the C++
double entries, which this class only copies and never computes with. -/
structure SingularMatrixException (D : Type) where
  num_rows_ : Int
  num_cols_ : Int
  matrix_ : List D
  message_ : String

def SingularMatrixException.kName : String := "SingularMatrixException"

/-- Modelled from the spec: the SingularMatrixException constructor body is
in gpp_exception.cpp, absent from the available sources.  Per the spec
(§4.7) and the header's format documentation, it copies the
num_rows × num_cols row-major entries read from the caller's pointer into
owned storage (the caller's buffer is read, never retained) and formats
"SingularMatrixException: M x N matrix is singular. CUSTOM_MESSAGE
FUNCTION_NAME FILE_LINE_INFO". -/
def SingularMatrixException.mk' {D : Type} (line_info func_info custom_message : String) (matrix_in : List D) (num_rows_in num_cols_in : Int) : SingularMatrixException D :=
  ⟨num_rows_in, num_cols_in, matrix_in.take (num_rows_in * num_cols_in).toNat,
    formatMessage SingularMatrixException.kName (singularDesc (toString num_rows_in) (toString num_cols_in)) custom_message func_info line_info⟩

def SingularMatrixException.what {D : Type} (e : SingularMatrixException D) : String :=
  e.message_

def SingularMatrixException.num_rows {D : Type} (e : SingularMatrixException D) : Int :=
  e.num_rows_

def SingularMatrixException.num_cols {D : Type} (e : SingularMatrixException D) : Int :=
  e.num_cols_

def SingularMatrixException.matrix {D : Type} (e : SingularMatrixException D) : List D :=
  e.matrix_

/-- Unwind-mode ThrowException (gpp_exception.hpp lines 105-110): wraps the
throw keyword.  throw is embedded as the error outcome of an Except
computation: the raised value is carried to the nearest matching handler and
control never resumes at the call site (the ok outcome is never produced). -/
def ThrowException {E : Type} (except_in : E) : Except E Unit :=
  Except.error except_in

/-- Whether an Except outcome returns control normally to the call site. -/
def returnsNormally {E : Type} : Except E Unit → Bool
  | Except.ok _ => true
  | Except.error _ => false

/-- Catching by the raised value's declared kind: the handler receives the
carried error value. -/
def catchByDeclaredKind {E : Type} : Except E Unit → Option E
  | Except.error e => some e
  | Except.ok _ => none

/-- An observable event of an abort-mode raise. -/
inductive RaiseEvent (E : Type) where
  | invokeTerminalAction (e : E)

/-- The observable behaviour of one abort-mode raise: the terminal-action
invocations it performs and whether control returns to the caller. -/
structure AbortModeRun (E : Type) where
  events : List (RaiseEvent E)
  returnsToCaller : Bool

/-- Modelled from the spec: in the OL_NO_EXCEPTIONS configuration
(gpp_exception.hpp lines 74-91) ThrowException is only declared OL_NORETURN;
its body is supplied by the embedding environment and is absent from the
available sources.  Per the spec (§4.1), the raise invokes the externally
supplied terminal action exactly once with a reference to the error value and
never returns control to the caller. -/
def ThrowExceptionAbortMode {E : Type} (except_in : E) : AbortModeRun E :=
  ⟨[RaiseEvent.invokeTerminalAction except_in], false⟩

/-- The classes of gpp_exception.hpp, std::exception, and a representative
class unrelated to the hierarchy, for reasoning about inheritance and the
static_assert in ThrowException. -/
inductive CppClassType where
  | stdExceptionClass
  | runtimeExceptionClass
  | boundsExceptionClass
  | lowerBoundExceptionClass
  | upperBoundExceptionClass
  | invalidValueExceptionClass
  | singularMatrixExceptionClass
  | unrelatedClass
deriving DecidableEq

/-- The declared public base class of each class, read off the class heads in
gpp_exception.hpp (lines 141, 190, 259, 287, 321, 412). -/
def publicBase : CppClassType → Option CppClassType
  | CppClassType.runtimeExceptionClass => some CppClassType.stdExceptionClass
  | CppClassType.boundsExceptionClass => some CppClassType.stdExceptionClass
  | CppClassType.lowerBoundExceptionClass => some CppClassType.boundsExceptionClass
  | CppClassType.upperBoundExceptionClass => some CppClassType.boundsExceptionClass
  | CppClassType.invalidValueExceptionClass => some CppClassType.stdExceptionClass
  | CppClassType.singularMatrixExceptionClass => some CppClassType.stdExceptionClass
  | _ => none

/-- Fuel-bounded base-class chase along publicBase. -/
def isBaseOfFuel : Nat → CppClassType → CppClassType → Bool
  | 0, base, c => base == c
  | Nat.succ n, base, c =>
    base == c ||
      (match publicBase c with
       | some b => isBaseOfFuel n base b
       | none => false)

/-- std::is_base_of<Base, Derived> over the modelled hierarchy (8 classes, so
fuel 8 exhausts every chain). -/
def is_base_of (base c : CppClassType) : Bool :=
  isBaseOfFuel 8 base c

/-- The static_assert in unwind-mode ThrowException (gpp_exception.hpp line
107): the template instantiates only for types publicly derived from
std::exception. -/
def throwExceptionInstantiable (t : CppClassType) : Bool :=
  is_base_of CppClassType.stdExceptionClass t

/-- C++ catch-clause matching by class: a handler declared to catch a class
receives a thrown object of any publicly derived class. -/
def catchDelivers (declared thrown : CppClassType) : Bool :=
  is_base_of declared thrown

/-- The six concrete error kinds of the taxonomy. -/
def errorKindClasses : List CppClassType :=
  [CppClassType.runtimeExceptionClass, CppClassType.boundsExceptionClass,
   CppClassType.lowerBoundExceptionClass, CppClassType.upperBoundExceptionClass,
   CppClassType.invalidValueExceptionClass, CppClassType.singularMatrixExceptionClass]

/-- Which special member functions a class deletes. -/
structure SpecialMemberTable where
  defaultCtorDeleted : Bool
  copyAssignDeleted : Bool

/-- Modelled from the spec: OL_DISALLOW_DEFAULT_AND_ASSIGN is defined in
gpp_common.hpp, absent from the available sources; per its name and the
spec's immutability invariant it deletes the default constructor and the
assignment operator.  RuntimeException instead deletes only its default
constructor explicitly (gpp_exception.hpp line 174); the macro is applied by
BoundsException (line 240), LowerBoundException (line 279),
UpperBoundException (line 307), InvalidValueException (line 390) and
SingularMatrixException (line 465). -/
def specialMembers : CppClassType → SpecialMemberTable
  | CppClassType.runtimeExceptionClass => ⟨true, false⟩
  | CppClassType.boundsExceptionClass => ⟨true, true⟩
  | CppClassType.lowerBoundExceptionClass => ⟨true, true⟩
  | CppClassType.upperBoundExceptionClass => ⟨true, true⟩
  | CppClassType.invalidValueExceptionClass => ⟨true, true⟩
  | CppClassType.singularMatrixExceptionClass => ⟨true, true⟩
  | CppClassType.stdExceptionClass => ⟨false, false⟩
  | CppClassType.unrelatedClass => ⟨false, false⟩

theorem formatMessage_contains (name desc custom_message func_info line_info : String) :
    containsInOrder [name, desc, custom_message, func_info, line_info]
      (formatMessage name desc custom_message func_info line_info) := by
  refine ⟨"", ": " ++ (desc ++ (" " ++ (custom_message ++ (" " ++ (func_info ++ (" " ++ line_info)))))),
    by simp [formatMessage], ?_⟩
  refine ⟨": ", " " ++ (custom_message ++ (" " ++ (func_info ++ (" " ++ line_info)))), rfl, ?_⟩
  refine ⟨" ", " " ++ (func_info ++ (" " ++ line_info)), rfl, ?_⟩
  refine ⟨" ", " " ++ line_info, rfl, ?_⟩
  exact ⟨" ", "", by simp, trivial⟩

theorem runtimeMessage_contains (name custom_message func_info line_info : String) :
    containsInOrder [name, "", custom_message, func_info, line_info]
      (runtimeMessage name custom_message func_info line_info) := by
  refine ⟨"", ": " ++ (custom_message ++ (" " ++ (func_info ++ (" " ++ line_info)))),
    by simp [runtimeMessage], ?_⟩
  refine ⟨": ", custom_message ++ (" " ++ (func_info ++ (" " ++ line_info))), by simp, ?_⟩
  refine ⟨"", " " ++ (func_info ++ (" " ++ line_info)), by simp, ?_⟩
  refine ⟨" ", " " ++ line_info, rfl, ?_⟩
  exact ⟨" ", "", by simp, trivial⟩

/-- C1: for every error kind and every choice of constructor arguments, the
what() string contains, in order, the kind's kName literal, the
condition-specific description, the custom message verbatim, the calling
routine name, and the file/line token (RuntimeException's condition
description being empty). -/
theorem what_contains_fields_in_order :
    (∀ (line_info func_info custom_message : String),
        containsInOrder [RuntimeException.kName, "", custom_message, func_info, line_info]
          (RuntimeException.mk' line_info func_info custom_message).what)
  ∧ (∀ (T : Type) (toStr : T → String) (line_info func_info custom_message : String) (value_in min_in max_in : T),
        containsInOrder
          [BoundsException.kName, boundsDesc (toStr value_in) (toStr min_in) (toStr max_in),
            custom_message, func_info, line_info]
          (BoundsException.mk' toStr line_info func_info custom_message value_in min_in max_in).what)
  ∧ (∀ (T : Type) (toStr : T → String) (limits : NumericLimits T) (line_info func_info custom_message : String) (value_in min_in : T),
        containsInOrder
          [LowerBoundException.kName, boundsDesc (toStr value_in) (toStr min_in) (toStr limits.max),
            custom_message, func_info, line_info]
          (LowerBoundException.mk' toStr limits line_info func_info custom_message value_in min_in).toBoundsException.what)
  ∧ (∀ (T : Type) (toStr : T → String) (limits : NumericLimits T) (line_info func_info custom_message : String) (value_in max_in : T),
        containsInOrder
          [UpperBoundException.kName, boundsDesc (toStr value_in) (toStr limits.lowest) (toStr max_in),
            custom_message, func_info, line_info]
          (UpperBoundException.mk' toStr limits line_info func_info custom_message value_in max_in).toBoundsException.what)
  ∧ (∀ (T : Type) [Zero T] (toStr : T → String) (line_info func_info custom_message : String) (value_in truth_in : T),
        containsInOrder
          [InvalidValueException.kName, invalidValueDesc (toStr value_in) (toStr truth_in),
            custom_message, func_info, line_info]
          (InvalidValueException.mk' toStr line_info func_info custom_message value_in truth_in).what)
  ∧ (∀ (T : Type) (toStr : T → String) (line_info func_info custom_message : String) (value_in truth_in tolerance_in : T),
        containsInOrder
          [InvalidValueException.kName, invalidValueDescTol (toStr value_in) (toStr truth_in) (toStr tolerance_in),
            custom_message, func_info, line_info]
          (InvalidValueException.mkTol toStr line_info func_info custom_message value_in truth_in tolerance_in).what)
  ∧ (∀ (D : Type) (line_info func_info custom_message : String) (matrix_in : List D) (num_rows_in num_cols_in : Int),
        containsInOrder
          [SingularMatrixException.kName, singularDesc (toString num_rows_in) (toString num_cols_in),
            custom_message, func_info, line_info]
          (SingularMatrixException.mk' line_info func_info custom_message matrix_in num_rows_in num_cols_in).what) := by
  refine ⟨?_, ?_, ?_, ?_, ?_, ?_, ?_⟩
  · intro line_info func_info custom_message
    exact runtimeMessage_contains RuntimeException.kName custom_message func_info line_info
  · intro T toStr line_info func_info custom_message value_in min_in max_in
    exact formatMessage_contains BoundsException.kName
      (boundsDesc (toStr value_in) (toStr min_in) (toStr max_in)) custom_message func_info line_info
  · intro T toStr limits line_info func_info custom_message value_in min_in
    exact formatMessage_contains LowerBoundException.kName
      (boundsDesc (toStr value_in) (toStr min_in) (toStr limits.max)) custom_message func_info line_info
  · intro T toStr limits line_info func_info custom_message value_in max_in
    exact formatMessage_contains UpperBoundException.kName
      (boundsDesc (toStr value_in) (toStr limits.lowest) (toStr max_in)) custom_message func_info line_info
  · intro T instZ toStr line_info func_info custom_message value_in truth_in
    exact formatMessage_contains InvalidValueException.kName
      (invalidValueDesc (toStr value_in) (toStr truth_in)) custom_message func_info line_info
  · intro T toStr line_info func_info custom_message value_in truth_in tolerance_in
    exact formatMessage_contains InvalidValueException.kName
      (invalidValueDescTol (toStr value_in) (toStr truth_in) (toStr tolerance_in)) custom_message func_info line_info
  · intro D line_info func_info custom_message matrix_in num_rows_in num_cols_in
    exact formatMessage_contains SingularMatrixException.kName
      (singularDesc (toString num_rows_in) (toString num_cols_in)) custom_message func_info line_info

/-- C2: LowerBoundException delegates to the protected BoundsException
constructor with max = numeric_limits::max(), UpperBoundException with
min = numeric_limits::lowest(); both produce exactly the shared
BoundsException-format message with the substituted sentinel bound, and for
LowerBoundException<int> with value = -1, min = 0 the stored max is the
maximum representable int. -/
theorem lower_upper_substitute_sentinel_bound :
    (∀ (T : Type) (toStr : T → String) (limits : NumericLimits T) (line_info func_info custom_message : String) (value_in min_in : T),
        (LowerBoundException.mk' toStr limits line_info func_info custom_message value_in min_in).toBoundsException
            = BoundsException.mkProtected toStr LowerBoundException.kName line_info func_info custom_message value_in min_in limits.max
      ∧ (LowerBoundException.mk' toStr limits line_info func_info custom_message value_in min_in).toBoundsException.max
            = limits.max
      ∧ (LowerBoundException.mk' toStr limits line_info func_info custom_message value_in min_in).toBoundsException.what
            = boundsMessage LowerBoundException.kName line_info func_info custom_message
                (toStr value_in) (toStr min_in) (toStr limits.max))
  ∧ (∀ (T : Type) (toStr : T → String) (limits : NumericLimits T) (line_info func_info custom_message : String) (value_in max_in : T),
        (UpperBoundException.mk' toStr limits line_info func_info custom_message value_in max_in).toBoundsException
            = BoundsException.mkProtected toStr UpperBoundException.kName line_info func_info custom_message value_in limits.lowest max_in
      ∧ (UpperBoundException.mk' toStr limits line_info func_info custom_message value_in max_in).toBoundsException.min
            = limits.lowest
      ∧ (UpperBoundException.mk' toStr limits line_info func_info custom_message value_in max_in).toBoundsException.what
            = boundsMessage UpperBoundException.kName line_info func_info custom_message
                (toStr value_in) (toStr limits.lowest) (toStr max_in))
  ∧ ((LowerBoundException.mk' toString intLimits "(gpp_foo.cpp: 10)" "Routine" "message" (-1 : Int) 0).toBoundsException.max
        = 2147483647
      ∧ (LowerBoundException.mk' toString intLimits "(gpp_foo.cpp: 10)" "Routine" "message" (-1 : Int) 0).toBoundsException.what
        = boundsMessage LowerBoundException.kName "(gpp_foo.cpp: 10)" "Routine" "message" "-1" "0" "2147483647") :=
  ⟨fun T toStr limits line_info func_info custom_message value_in min_in => ⟨rfl, rfl, rfl⟩,
   fun T toStr limits line_info func_info custom_message value_in max_in => ⟨rfl, rfl, rfl⟩,
   rfl, rfl⟩

/-- C3: BoundsException stores value, min, max verbatim — with no clamping,
reordering, or min ≤ max validation, as shown at min > max — its accessors
return exactly the supplied arguments, its message is the documented
"VALUE is not in range [MIN, MAX]" format, and the value = 5, min = 0,
max = 3 instance contains "5 is not in range [0, 3]". -/
theorem bounds_stores_verbatim_and_formats :
    (∀ (T : Type) (toStr : T → String) (line_info func_info custom_message : String) (value_in min_in max_in : T),
        (BoundsException.mk' toStr line_info func_info custom_message value_in min_in max_in).value = value_in
      ∧ (BoundsException.mk' toStr line_info func_info custom_message value_in min_in max_in).min = min_in
      ∧ (BoundsException.mk' toStr line_info func_info custom_message value_in min_in max_in).max = max_in
      ∧ (BoundsException.mk' toStr line_info func_info custom_message value_in min_in max_in).what
          = boundsMessage BoundsException.kName line_info func_info custom_message
              (toStr value_in) (toStr min_in) (toStr max_in))
  ∧ ((BoundsException.mk' toString "(gpp_foo.cpp: 10)" "Routine" "message" (5 : Int) 10 3).value = 5
      ∧ (BoundsException.mk' toString "(gpp_foo.cpp: 10)" "Routine" "message" (5 : Int) 10 3).min = 10
      ∧ (BoundsException.mk' toString "(gpp_foo.cpp: 10)" "Routine" "message" (5 : Int) 10 3).max = 3)
  ∧ containsInOrder ["5 is not in range [0, 3]"]
      (BoundsException.mk' toString "(gpp_foo.cpp: 10)" "Routine" "message" (5 : Int) 0 3).what :=
  ⟨fun T toStr line_info func_info custom_message value_in min_in max_in => ⟨rfl, rfl, rfl, rfl⟩,
   ⟨rfl, rfl, rfl⟩,
   ⟨"BoundsException: ", ". message Routine (gpp_foo.cpp: 10)", by decide, trivial⟩⟩

/-- C4: raising in unwind mode never returns control to the call site, the
raised value is delivered to a handler catching its declared kind, and the
delivered value's payload accessors return exactly the originally supplied
payload (round-trip identity) for every kind. -/
theorem raise_unwind_roundtrip_identity :
    (∀ (E : Type) (except_in : E), returnsNormally (ThrowException except_in) = false)
  ∧ (∀ (E : Type) (except_in : E), catchByDeclaredKind (ThrowException except_in) = some except_in)
  ∧ (∀ (line_info func_info custom_message : String),
        catchByDeclaredKind (ThrowException (RuntimeException.mk' line_info func_info custom_message))
          = some (RuntimeException.mk' line_info func_info custom_message))
  ∧ (∀ (T : Type) (toStr : T → String) (line_info func_info custom_message : String) (value_in min_in max_in : T),
        catchByDeclaredKind (ThrowException (BoundsException.mk' toStr line_info func_info custom_message value_in min_in max_in))
          = some (BoundsException.mk' toStr line_info func_info custom_message value_in min_in max_in)
      ∧ (BoundsException.mk' toStr line_info func_info custom_message value_in min_in max_in).value = value_in
      ∧ (BoundsException.mk' toStr line_info func_info custom_message value_in min_in max_in).min = min_in
      ∧ (BoundsException.mk' toStr line_info func_info custom_message value_in min_in max_in).max = max_in)
  ∧ (∀ (T : Type) (toStr : T → String) (line_info func_info custom_message : String) (value_in truth_in tolerance_in : T),
        catchByDeclaredKind (ThrowException (InvalidValueException.mkTol toStr line_info func_info custom_message value_in truth_in tolerance_in))
          = some (InvalidValueException.mkTol toStr line_info func_info custom_message value_in truth_in tolerance_in)
      ∧ (InvalidValueException.mkTol toStr line_info func_info custom_message value_in truth_in tolerance_in).value = value_in
      ∧ (InvalidValueException.mkTol toStr line_info func_info custom_message value_in truth_in tolerance_in).truth = truth_in
      ∧ (InvalidValueException.mkTol toStr line_info func_info custom_message value_in truth_in tolerance_in).tolerance = tolerance_in)
  ∧ (∀ (D : Type) (a b c d : D) (line_info func_info custom_message : String),
        catchByDeclaredKind (ThrowException (SingularMatrixException.mk' line_info func_info custom_message [a, b, c, d] 2 2))
          = some (SingularMatrixException.mk' line_info func_info custom_message [a, b, c, d] 2 2)
      ∧ (SingularMatrixException.mk' line_info func_info custom_message [a, b, c, d] 2 2).num_rows = 2
      ∧ (SingularMatrixException.mk' line_info func_info custom_message [a, b, c, d] 2 2).num_cols = 2
      ∧ (SingularMatrixException.mk' line_info func_info custom_message [a, b, c, d] 2 2).matrix = [a, b, c, d]) :=
  ⟨fun E except_in => rfl,
   fun E except_in => rfl,
   fun line_info func_info custom_message => rfl,
   fun T toStr line_info func_info custom_message value_in min_in max_in => ⟨rfl, rfl, rfl, rfl⟩,
   fun T toStr line_info func_info custom_message value_in truth_in tolerance_in => ⟨rfl, rfl, rfl, rfl⟩,
   fun D a b c d line_info func_info custom_message => ⟨rfl, rfl, rfl, rfl⟩⟩

/-- C5: the tolerance-taking InvalidValueException constructor participates
in overload resolution exactly for floating-point value types: it is
unavailable for int, available for double, and its availability coincides
with std::is_floating_point for every scalar type. -/
theorem tolerance_ctor_floating_point_only :
    (∀ (T : Type) (toStr : T → String) (line_info func_info custom_message : String) (value_in truth_in tolerance_in : T),
        InvalidValueException.mkTolIfEnabled CppScalarType.cppInt toStr line_info func_info custom_message value_in truth_in tolerance_in
          = none)
  ∧ (∀ (T : Type) (toStr : T → String) (line_info func_info custom_message : String) (value_in truth_in tolerance_in : T),
        InvalidValueException.mkTolIfEnabled CppScalarType.cppDouble toStr line_info func_info custom_message value_in truth_in tolerance_in
          = some (InvalidValueException.mkTol toStr line_info func_info custom_message value_in truth_in tolerance_in))
  ∧ (∀ (scalar : CppScalarType) (T : Type) (toStr : T → String) (line_info func_info custom_message : String) (value_in truth_in tolerance_in : T),
        (InvalidValueException.mkTolIfEnabled scalar toStr line_info func_info custom_message value_in truth_in tolerance_in).isSome
          = isFloatingPoint scalar) := by
  refine ⟨fun T toStr line_info func_info custom_message value_in truth_in tolerance_in => rfl,
    fun T toStr line_info func_info custom_message value_in truth_in tolerance_in => rfl, ?_⟩
  intro scalar T toStr line_info func_info custom_message value_in truth_in tolerance_in
  cases scalar <;> rfl

/-- C6: SingularMatrixException copies the num_rows × num_cols row-major
entries into owned storage, and afterwards num_rows(), num_cols() and
matrix() return the supplied row count, column count and entries in the
supplied order; in particular a 2 × 2 matrix round-trips all 4 entries. -/
theorem singular_matrix_owned_copy :
    (∀ (D : Type) (line_info func_info custom_message : String) (matrix_in : List D) (num_rows_in num_cols_in : Int),
        (SingularMatrixException.mk' line_info func_info custom_message matrix_in num_rows_in num_cols_in).num_rows = num_rows_in
      ∧ (SingularMatrixException.mk' line_info func_info custom_message matrix_in num_rows_in num_cols_in).num_cols = num_cols_in
      ∧ (SingularMatrixException.mk' line_info func_info custom_message matrix_in num_rows_in num_cols_in).matrix
          = matrix_in.take (num_rows_in * num_cols_in).toNat)
  ∧ (∀ (D : Type) (a b c d : D) (line_info func_info custom_message : String),
        (SingularMatrixException.mk' line_info func_info custom_message [a, b, c, d] 2 2).num_rows = 2
      ∧ (SingularMatrixException.mk' line_info func_info custom_message [a, b, c, d] 2 2).num_cols = 2
      ∧ (SingularMatrixException.mk' line_info func_info custom_message [a, b, c, d] 2 2).matrix = [a, b, c, d]) :=
  ⟨fun D line_info func_info custom_message matrix_in num_rows_in num_cols_in => ⟨rfl, rfl, rfl⟩,
   fun D a b c d line_info func_info custom_message => ⟨rfl, rfl, rfl⟩⟩

/-- C7: in abort mode, raising any error value invokes the externally
supplied terminal action exactly once, with that error value, and never
returns control to the caller. -/
theorem abort_mode_invokes_terminal_action_once :
    ∀ (E : Type) (except_in : E),
      (ThrowExceptionAbortMode except_in).events = [RaiseEvent.invokeTerminalAction except_in]
    ∧ (ThrowExceptionAbortMode except_in).returnsToCaller = false :=
  fun E except_in => ⟨rfl, rfl⟩

/-- C8: unwind-mode ThrowException instantiates only for types publicly
derived from std::exception: all six error kinds (and std::exception itself)
pass the static_assert, and a class unrelated to the hierarchy is rejected. -/
theorem throw_exception_requires_std_exception :
    (errorKindClasses.all throwExceptionInstantiable) = true
  ∧ throwExceptionInstantiable CppClassType.stdExceptionClass = true
  ∧ throwExceptionInstantiable CppClassType.unrelatedClass = false := by
  decide

/-- C9: every error kind deletes default construction, and every kind except
RuntimeException also deletes copy assignment. -/
theorem error_kinds_delete_default_ctor_and_assign :
    ((errorKindClasses.all fun c => (specialMembers c).defaultCtorDeleted) = true)
  ∧ ((errorKindClasses.all fun c =>
        (specialMembers c).copyAssignDeleted == (c != CppClassType.runtimeExceptionClass)) = true) := by
  decide

/-- C10: LowerBoundException<T> and UpperBoundException<T> publicly derive
from BoundsException<T>, so a handler declared for BoundsException<T> also
receives them, and their value()/min()/max() are the inherited
BoundsException<T> accessors applied to the base subobject, returning the
constructed payload. -/
theorem lower_upper_publicly_derive_bounds :
    is_base_of CppClassType.boundsExceptionClass CppClassType.lowerBoundExceptionClass = true
  ∧ is_base_of CppClassType.boundsExceptionClass CppClassType.upperBoundExceptionClass = true
  ∧ catchDelivers CppClassType.boundsExceptionClass CppClassType.lowerBoundExceptionClass = true
  ∧ catchDelivers CppClassType.boundsExceptionClass CppClassType.upperBoundExceptionClass = true
  ∧ (∀ (T : Type) (toStr : T → String) (limits : NumericLimits T) (line_info func_info custom_message : String) (value_in min_in : T),
        BoundsException.value (LowerBoundException.mk' toStr limits line_info func_info custom_message value_in min_in).toBoundsException = value_in
      ∧ BoundsException.min (LowerBoundException.mk' toStr limits line_info func_info custom_message value_in min_in).toBoundsException = min_in
      ∧ BoundsException.max (LowerBoundException.mk' toStr limits line_info func_info custom_message value_in min_in).toBoundsException = limits.max)
  ∧ (∀ (T : Type) (toStr : T → String) (limits : NumericLimits T) (line_info func_info custom_message : String) (value_in max_in : T),
        BoundsException.value (UpperBoundException.mk' toStr limits line_info func_info custom_message value_in max_in).toBoundsException = value_in
      ∧ BoundsException.min (UpperBoundException.mk' toStr limits line_info func_info custom_message value_in max_in).toBoundsException = limits.lowest
      ∧ BoundsException.max (UpperBoundException.mk' toStr limits line_info func_info custom_message value_in max_in).toBoundsException = max_in) :=
  ⟨by decide, by decide, by decide, by decide,
   fun T toStr limits line_info func_info custom_message value_in min_in => ⟨rfl, rfl, rfl⟩,
   fun T toStr limits line_info func_info custom_message value_in max_in => ⟨rfl, rfl, rfl⟩⟩

end OptimalLearning
